import Mathlib

/-!
Verification of the rule-to-check compiler of
`generate_validation_package.py` (ETL validation-package generator).

Text is modelled shallowly as `List Char`; Python string operations
(`strip`, `upper`, `replace`, `split("\n")`, substring tests, and the
fixed regular expressions of the validation-rule parser) are translated
into executable Lean functions over that model.  The regex character
classes `\s` and `\w` are modelled by their ASCII parts, which cover the
repository's data.
-/

/-- Text is modelled as a list of characters. -/
abbrev Str := List Char

/-- Inject a Lean string literal into the text model. -/
def str (s : String) : Str := s.toList

/-- Python `str.upper` (ASCII part). -/
def upperStr (s : Str) : Str := s.map Char.toUpper

/-- Whitespace for Python `str.strip` and the regex class `\s` (ASCII part:
space, tab, newline, carriage return, vertical tab, form feed). -/
def isPyWs (c : Char) : Bool :=
  c = ' ' || c = '\t' || c = '\n' || c = '\r' || c = '\x0b' || c = '\x0c'

/-- Python `str.lstrip()`. -/
def pyLstrip : Str → Str
  | [] => []
  | c :: cs => if isPyWs c then pyLstrip cs else c :: cs

/-- Python `str.rstrip()`, via reversal. -/
def pyRstrip (s : Str) : Str := (pyLstrip s.reverse).reverse

/-- Python `str.strip()`. -/
def pyStrip (s : Str) : Str := pyRstrip (pyLstrip s)

/-- Python's substring test `p in s`. -/
def isSubstrOf : Str → Str → Bool
  | p, [] => p.isEmpty
  | p, c :: cs => p.isPrefixOf (c :: cs) || isSubstrOf p cs

/-- `_escape_plsql` (also inlined as `field.replace("'", "''")` in
`generate_mandatory_sql`): double each single quote. -/
def _escape_plsql : Str → Str
  | [] => []
  | c :: cs =>
    if c = '\'' then '\'' :: '\'' :: _escape_plsql cs
    else c :: _escape_plsql cs

/-- Modelled from the spec: the dialect's unescape rule — collapse each
doubled single quote back to one quote, scanning left to right.  The
source repository contains only the escaping direction
(`_escape_plsql`); the unescape rule exists only as the spec's words
"the dialect's unescape rule ... applied once". -/
def unescape_plsql : Str → Str
  | [] => []
  | [c] => [c]
  | c :: d :: cs =>
    if c = '\'' ∧ d = '\'' then '\'' :: unescape_plsql cs
    else c :: unescape_plsql (d :: cs)

/-- One normalized mapping-sheet row (`field`, `mandatory`, `validation`,
`transformation`), as built by `parse_mapping_sheet`. -/
structure FieldRule where
  field : Str
  mandatory : Bool
  validation : Str
  transformation : Str
deriving DecidableEq

/-- `detect_batch_column`: the first rule whose upper-cased field name
contains "BATCH"; the literal `BATCH_ID` when none does. -/
def detect_batch_column : List FieldRule → Str
  | [] => str "BATCH_ID"
  | r :: rs =>
    if isSubstrOf (str "BATCH") (upperStr r.field) then r.field
    else detect_batch_column rs

/-!
### The validation-rule parser's regular expressions

Each Python regex of `parse_validation_rule` is hand-compiled into an
executable recognizer.  `re.search` scans for the leftmost match; every
alternation in these patterns has branches distinguished by their first
character, and every greedy `\s+`, `\s*`, `\d+` or `\w+` is followed by
a token that no further repetition step could also start, so the
committed maximal-munch translation below has exactly the regex's match
semantics.  The one place needing backtracking — the greedy star over
quoted literals in pattern 1 — is implemented explicitly in
`parseEnumVals`.
-/

/-- Match the (lower-case) token `pat` case-insensitively as a prefix of
`s`; return the rest on success. -/
def ciTokAux : List Char → Str → Option Str
  | [], s => some s
  | _ :: _, [] => none
  | p :: ps, c :: cs => if c.toLower = p then ciTokAux ps cs else none

def ciTok (pat : String) (s : Str) : Option Str := ciTokAux pat.toList s

/-- The regex `\s*`: drop maximal whitespace. -/
def dropWs : Str → Str
  | [] => []
  | c :: cs => if isPyWs c then dropWs cs else c :: cs

/-- The regex `\s+`: at least one whitespace character, then maximal. -/
def ws1 : Str → Option Str
  | [] => none
  | c :: cs => if isPyWs c then some (dropWs cs) else none

/-- Pattern 2 matched at the current position:
`(must|should)\s+be\s+(numeric|a\s+number)`. -/
def numericAt (s : Str) : Bool :=
  match ((((ciTok "must" s).orElse fun _ => ciTok "should" s).bind ws1).bind
      (ciTok "be")).bind ws1 with
  | none => false
  | some r =>
    (ciTok "numeric" r).isSome ||
      (((ciTok "a" r).bind ws1).bind (ciTok "number")).isSome

/-- Pattern 2 search:
`re.search(r"(must|should)\s+be\s+(numeric|a\s+number)", rule_text,
re.IGNORECASE)` as a Boolean. -/
def numericMatch : Str → Bool
  | [] => false
  | c :: cs => numericAt (c :: cs) || numericMatch cs

/-- Pattern 4 matched at the current position:
`(cannot|must\s+not|should\s+not)\s+contain\s+special\s+char`. -/
def specialCharAt (s : Str) : Bool :=
  match (((ciTok "cannot" s).orElse fun _ =>
        ((ciTok "must" s).bind ws1).bind (ciTok "not")).orElse fun _ =>
        ((ciTok "should" s).bind ws1).bind (ciTok "not")) with
  | none => false
  | some r =>
    (((((ws1 r).bind (ciTok "contain")).bind ws1).bind
        (ciTok "special")).bind ws1).bind (ciTok "char") |>.isSome

/-- Pattern 4 search. -/
def specialCharMatch : Str → Bool
  | [] => false
  | c :: cs => specialCharAt (c :: cs) || specialCharMatch cs

/-- `not\s*null` at the current position (case-insensitive). -/
def notNullAt (s : Str) : Bool :=
  match ciTok "not" s with
  | none => false
  | some r => (ciTok "null" (dropWs r)).isSome

/-- After an "if": search for `not\s*null` without crossing a newline
(the `.` of `if.*not\s*null` does not match a newline; the `\s*` inside
`not\s*null` may). -/
def scanNoNewline : Str → Bool
  | [] => false
  | c :: cs => notNullAt (c :: cs) || (if c = '\n' then false else scanNoNewline cs)

/-- The conditional-guard detector of pattern 1:
`re.search(r"if.*not\s*null", rule_text, re.IGNORECASE)` as a
Boolean. -/
def hasIfNotNull : Str → Bool
  | [] => false
  | c :: cs =>
    (match ciTok "if" (c :: cs) with
     | some r => scanNoNewline r
     | none => false) || hasIfNotNull cs

/-- The regex `\d+` at the current position: the maximal nonempty digit
run (kept as a string, as the source keeps `group(1)`). -/
def digits1 (s : Str) : Option Str :=
  let ds := s.takeWhile Char.isDigit
  if ds.isEmpty then none else some ds

/-- Pattern 3 matched at the current position:
`(?:length|max\s+length)\s+(?:must\s+not\s+exceed|is|of)\s+(\d+)`,
returning the captured digit string. -/
def lengthAt (s : Str) : Option Str :=
  match (ciTok "length" s).orElse fun _ =>
      ((ciTok "max" s).bind ws1).bind (ciTok "length") with
  | none => none
  | some r1 =>
    match ws1 r1 with
    | none => none
    | some r2 =>
      match (((((ciTok "must" r2).bind ws1).bind (ciTok "not")).bind ws1).bind
          (ciTok "exceed")).orElse fun _ =>
          (ciTok "is" r2).orElse fun _ => ciTok "of" r2 with
      | none => none
      | some r3 => (ws1 r3).bind digits1

/-- Pattern 3 search. -/
def lengthMatch : Str → Option Str
  | [] => none
  | c :: cs =>
    match lengthAt (c :: cs) with
    | some d => some d
    | none => lengthMatch cs

/-- The regex class `\w` (ASCII part: letters, digits, underscore). -/
def isWordChar (c : Char) : Bool := c.isAlpha || c.isDigit || c = '_'

/-- `\w+` at the current position: the maximal nonempty word-character
run together with the rest. -/
def word1 (s : Str) : Option (Str × Str) :=
  let ds := s.takeWhile isWordChar
  if ds.isEmpty then none else some (ds, s.drop ds.length)

/-- Pattern 5 matched at the current position:
`(?:must|should)\s+exist\s+in\s+(\w+)\.(\w+)`, returning the two
captured groups in their original case. -/
def existsAt (s : Str) : Option (Str × Str) :=
  match ((((((ciTok "must" s).orElse fun _ => ciTok "should" s).bind ws1).bind
      (ciTok "exist")).bind ws1).bind (ciTok "in")).bind ws1 with
  | none => none
  | some r =>
    match word1 r with
    | none => none
    | some (tblw, r1) =>
      match r1 with
      | '.' :: r2 =>
        match word1 r2 with
        | none => none
        | some (colw, _) => some (tblw, colw)
      | _ => none

/-- Pattern 5 search. -/
def existsMatch : Str → Option (Str × Str)
  | [] => none
  | c :: cs =>
    match existsAt (c :: cs) with
    | some p => some p
    | none => existsMatch cs

/-- A quoted literal `'[^']+'` at the current position: its (nonempty)
body and the rest. -/
def parseLit : Str → Option (Str × Str)
  | '\'' :: cs =>
    (let body := cs.takeWhile fun c => c ≠ '\''
     match cs.drop body.length with
     | '\'' :: rest => if body.isEmpty then none else some (body, rest)
     | _ => none)
  | _ => none

/-- The separator `\s*(?:,\s*|or\s+)` between the quoted literals of
pattern 1. -/
def parseSep (s : Str) : Option Str :=
  match dropWs s with
  | ',' :: r => some (dropWs r)
  | r =>
    match ciTok "or" r with
    | some r1 => ws1 r1
    | none => none

/-- The quoted-literal list of pattern 1:
`((?:'[^']+'\s*(?:,\s*|or\s+))*'[^']+')` with the regex's greedy
backtracking star — a literal followed by a separator is a unit of the
star only when a further literal still follows; otherwise it is the
final literal.  The returned list equals
`re.findall(r"'([^']+)'", group(1))` on the captured group, because
neither a literal body nor a separator contains a quote.  Fuel: each
literal consumes at least two characters, so `s.length` steps always
suffice. -/
def parseEnumVals : Nat → Str → Option (List Str)
  | 0, _ => none
  | fuel + 1, s =>
    match parseLit s with
    | none => none
    | some (v, rest) =>
      match parseSep rest with
      | none => some [v]
      | some rest1 =>
        match parseEnumVals fuel rest1 with
        | none => some [v]
        | some vs => some (v :: vs)

/-- Pattern 1 matched at the current position:
`(?:should|must)\s+only\s+be\s+((?:'[^']+'\s*(?:,\s*|or\s+))*'[^']+')`,
returning the literal bodies of the captured group. -/
def enumAt (s : Str) : Option (List Str) :=
  match ((((((ciTok "should" s).orElse fun _ => ciTok "must" s).bind ws1).bind
      (ciTok "only")).bind ws1).bind (ciTok "be")).bind ws1 with
  | none => none
  | some r => parseEnumVals r.length r

/-- Pattern 1 search (`re.search`, then `re.findall` on the captured
group): the literal values of the leftmost enumeration match, in order,
duplicates kept. -/
def enumMatch : Str → Option (List Str)
  | [] => none
  | c :: cs =>
    match enumAt (c :: cs) with
    | some vs => some vs
    | none => enumMatch cs

/-!
### The generated blocks of `parse_validation_rule`

Each block transcribes the corresponding f-string of the source;
`sql_parts` always holds exactly one block on every return path, so
`"\n".join(sql_parts)` is that block itself.
-/

/-- Python `", ".join(blocks)` and friends. -/
def joinSep (sep : Str) : List Str → Str
  | [] => []
  | [x] => x
  | x :: y :: xs => x ++ sep ++ joinSep sep (y :: xs)

/-- `in_list_msg = ", ".join(f"''{v}''" for v in values)`. -/
def inListMsg (vs : List Str) : Str :=
  joinSep (str ", ") (vs.map fun v => str "''" ++ v ++ str "''")

/-- `in_list_sql = ", ".join(f"'{v}'" for v in values)`. -/
def inListSql (vs : List Str) : Str :=
  joinSep (str ", ") (vs.map fun v => str "'" ++ v ++ str "'")

/-- `null_guard` of pattern 1: a single `IS NOT NULL` conjunct exactly
when the rule text has the `if.*not\s*null` qualifier. -/
def enumNullGuard (field ruleText : Str) : Str :=
  if hasIfNotNull ruleText then str "\n        AND t." ++ field ++ str " IS NOT NULL"
  else []

/-- Pattern 1's generated block. -/
def enumBlock (field ruleText tbl batch : Str) (vs : List Str) : Str :=
  str "        -- Validation: " ++ field ++ str " - " ++ ruleText ++
  str "\n        UPDATE " ++ tbl ++
  str " t\n        SET t.status = 'E',\n            t.error_message = NVL(t.error_message, '') || '" ++
  _escape_plsql field ++ str " must be one of (" ++ inListMsg vs ++
  str "); '\n        WHERE t." ++ batch ++ str " = p_batch_id" ++
  enumNullGuard field ruleText ++
  str "\n        AND t." ++ field ++ str " NOT IN (" ++ inListSql vs ++ str ");\n"

/-- Pattern 2's generated block. -/
def numericBlock (field ruleText tbl batch : Str) : Str :=
  str "        -- Validation: " ++ field ++ str " - " ++ ruleText ++
  str "\n        UPDATE " ++ tbl ++
  str " t\n        SET t.status = 'E',\n            t.error_message = NVL(t.error_message, '') || '" ++
  _escape_plsql field ++
  str " must be numeric; '\n        WHERE t." ++ batch ++
  str " = p_batch_id\n        AND t." ++ field ++
  str " IS NOT NULL\n        AND NOT REGEXP_LIKE(t." ++ field ++
  str ", ''^[0-9]+(\\.[0-9]+)?$'');\n"

/-- Pattern 3's generated block (`maxLen` is the captured digit
string). -/
def lengthBlock (field ruleText tbl batch maxLen : Str) : Str :=
  str "        -- Validation: " ++ field ++ str " - " ++ ruleText ++
  str "\n        UPDATE " ++ tbl ++
  str " t\n        SET t.status = 'E',\n            t.error_message = NVL(t.error_message, '') || '" ++
  _escape_plsql field ++
  str " exceeds maximum length of " ++ maxLen ++
  str "; '\n        WHERE t." ++ batch ++
  str " = p_batch_id\n        AND t." ++ field ++
  str " IS NOT NULL\n        AND LENGTH(t." ++ field ++ str ") > " ++ maxLen ++
  str ";\n"

/-- Pattern 4's generated block. -/
def specialCharBlock (field ruleText tbl batch : Str) : Str :=
  str "        -- Validation: " ++ field ++ str " - " ++ ruleText ++
  str "\n        UPDATE " ++ tbl ++
  str " t\n        SET t.status = 'E',\n            t.error_message = NVL(t.error_message, '') || '" ++
  _escape_plsql field ++
  str " contains special characters; '\n        WHERE t." ++ batch ++
  str " = p_batch_id\n        AND t." ++ field ++
  str " IS NOT NULL\n        AND LENGTH(t." ++ field ++
  str ") != LENGTHB(t." ++ field ++ str ");\n"

/-- Pattern 5's generated block. -/
def existsBlock (field ruleText tbl batch refTable refCol : Str) : Str :=
  str "        -- Validation: " ++ field ++ str " - " ++ ruleText ++
  str "\n        UPDATE " ++ tbl ++
  str " t\n        SET t.status = 'E',\n            t.error_message = NVL(t.error_message, '') || '" ++
  _escape_plsql field ++
  str " does not exist in " ++ refTable ++
  str "; '\n        WHERE t." ++ batch ++
  str " = p_batch_id\n        AND t." ++ field ++
  str " IS NOT NULL\n        AND NOT EXISTS (\n            SELECT 1 FROM " ++ refTable ++
  str " ref\n            WHERE ref." ++ refCol ++ str " = t." ++ field ++
  str "\n        );\n"

/-- The fallback's generated block (TODO comment plus commented-out
skeleton). -/
def fallbackBlock (field ruleText tbl batch : Str) : Str :=
  str "        -- TODO: Implement validation for " ++ field ++ str ": " ++ ruleText ++
  str "\n        -- UPDATE " ++ tbl ++
  str " t\n        -- SET t.status = 'E',\n        --     t.error_message = NVL(t.error_message, '') || '" ++
  _escape_plsql field ++
  str " validation failed; '\n        -- WHERE t." ++ batch ++
  str " = p_batch_id\n        -- AND <condition>;\n"

/-- Steps 5 and the fallback of the cascade. -/
def parseValidationStep5 (field ruleText tbl batch : Str) : Str × Bool :=
  match existsMatch ruleText with
  | some (rt, rc) => (existsBlock field ruleText tbl batch rt rc, true)
  | none => (fallbackBlock field ruleText tbl batch, false)

/-- Step 4 of the cascade. -/
def parseValidationStep4 (field ruleText tbl batch : Str) : Str × Bool :=
  if specialCharMatch ruleText then (specialCharBlock field ruleText tbl batch, true)
  else parseValidationStep5 field ruleText tbl batch

/-- Step 3 of the cascade. -/
def parseValidationStep3 (field ruleText tbl batch : Str) : Str × Bool :=
  match lengthMatch ruleText with
  | some n => (lengthBlock field ruleText tbl batch n, true)
  | none => parseValidationStep4 field ruleText tbl batch

/-- Step 2 of the cascade. -/
def parseValidationStep2 (field ruleText tbl batch : Str) : Str × Bool :=
  if numericMatch ruleText then (numericBlock field ruleText tbl batch, true)
  else parseValidationStep3 field ruleText tbl batch

/-- `parse_validation_rule(field, rule_text, table_name, batch_col)`:
the ordered cascade — enumeration, numeric, length, character class,
referential, fallback.  The `if vs = []` branch transcribes the source's
`if values:` guard (the extracted value list of a successful pattern-1
match is never empty, but the source still falls through to pattern 2 in
that case). -/
def parse_validation_rule (field ruleText tbl batch : Str) : Str × Bool :=
  if ruleText = [] then ([], true)
  else
    match enumMatch ruleText with
    | some vs =>
      if vs = [] then parseValidationStep2 field ruleText tbl batch
      else (enumBlock field ruleText tbl batch vs, true)
    | none => parseValidationStep2 field ruleText tbl batch

/-!
### The mandatory-check generator
-/

/-- Decimal rendering of a check or line number (a Python f-string's
`{check_num}` / `{line_no}`). -/
def natStr (n : Nat) : Str := (Nat.repr n).toList

/-- One live mandatory-check block of `generate_mandatory_sql` (the
source's inline `field.replace("'", "''")` is `_escape_plsql`). -/
def mandatoryBlock (tbl batch : Str) (checkNum : Nat) (field : Str) : Str :=
  str "        -- " ++ natStr checkNum ++ str ". Mandatory: " ++ field ++
  str "\n        UPDATE " ++ tbl ++
  str " t\n        SET t.status = 'E',\n            t.error_message = NVL(t.error_message, '') || '" ++
  _escape_plsql field ++
  str " is mandatory and cannot be NULL; '\n        WHERE t." ++ batch ++
  str " = p_batch_id\n        AND t." ++ field ++ str " IS NULL;\n"

/-- The emission loop of `generate_mandatory_sql` over the mandatory
rules: a rule whose field name equals the batch column case-insensitively
is skipped, and `check_num` is incremented only for emitted fields. -/
def mandatoryBlocksAux (tbl batch : Str) (checkNum : Nat) : List FieldRule → List Str
  | [] => []
  | r :: rs =>
    if upperStr r.field = upperStr batch then mandatoryBlocksAux tbl batch checkNum rs
    else mandatoryBlock tbl batch (checkNum + 1) r.field ::
      mandatoryBlocksAux tbl batch (checkNum + 1) rs

/-- The `blocks` list built by `generate_mandatory_sql`. -/
def generate_mandatory_blocks (tbl batch : Str) (rules : List FieldRule) : List Str :=
  mandatoryBlocksAux tbl batch 0 (rules.filter fun r => r.mandatory)

/-- `generate_mandatory_sql`. -/
def generate_mandatory_sql (tbl batch : Str) (rules : List FieldRule) : Str :=
  if (rules.filter fun r => r.mandatory).isEmpty then
    str "        -- No mandatory field checks defined.\n"
  else if (generate_mandatory_blocks tbl batch rules).isEmpty then
    str "        -- No mandatory field checks defined.\n"
  else joinSep (str "\n") (generate_mandatory_blocks tbl batch rules)

/-- Consecutive numbering from `n` (Python `enumerate(..., n)`); also
used to characterize the check numbers of the mandatory generator. -/
def numbered {α : Type} (n : Nat) : List α → List (Nat × α)
  | [] => []
  | x :: xs => (n, x) :: numbered (n + 1) xs

/-!
### The guardrail scanner
-/

/-- Python `sql_text.split("\n")`. -/
def splitLines : Str → List Str
  | [] => [[]]
  | c :: cs =>
    if c = '\n' then [] :: splitLines cs
    else
      match splitLines cs with
      | [] => [[c]]
      | h :: t => (c :: h) :: t

def DANGEROUS_KEYWORDS : List Str := [str "DROP ", str "TRUNCATE ", str "ALTER "]

/-- The warnings one line contributes in `validate_generated_sql`: none
when the stripped line starts with the comment marker `--`, otherwise
one warning per dangerous keyword occurring in the upper-cased stripped
line. -/
def lineWarnings (lineNo : Nat) (line : Str) : List Str :=
  let stripped := pyStrip line
  if (str "--").isPrefixOf stripped then []
  else
    DANGEROUS_KEYWORDS.filterMap fun kw =>
      if isSubstrOf kw (upperStr stripped) then
        some (str "  Line " ++ natStr lineNo ++ str ": " ++ stripped.take 100)
      else none

/-- `validate_generated_sql`: the collected warnings (reported to the
operator) and the Boolean result `len(warnings) == 0`; the scan only
warns — the function never aborts emission. -/
def validate_generated_sql (sqlText : Str) : List Str × Bool :=
  let warnings := (numbered 1 (splitLines sqlText)).flatMap fun p => lineWarnings p.1 p.2
  (warnings, warnings.length == 0)

/-!
### The mapping-sheet parser
-/

/-- A CSV file as handed over by `csv.DictReader`: the header names and
each data row as an association list from header name to cell text. -/
structure CsvFile where
  headers : List Str
  rows : List (List (Str × Str))

/-- `(row.get(key) or "")`: the cell under `key`, empty when the column
is absent. -/
def rowGet (row : List (Str × Str)) (key : Str) : Str :=
  match row.find? fun p => p.1 == key with
  | some p => p.2
  | none => []

/-- The row loop of `parse_mapping_sheet`: a row whose stripped field
name is empty is silently dropped; `mandatory` is true iff the stripped
upper-cased cell equals "YES"; the other two cells are stripped. -/
def parseRow (row : List (Str × Str)) : Option FieldRule :=
  let field := pyStrip (rowGet row (str "Field"))
  if field = [] then none
  else
    some
      { field := field
        mandatory := upperStr (pyStrip (rowGet row (str "Mandatory"))) == str "YES"
        validation := pyStrip (rowGet row (str "Validations"))
        transformation := pyStrip (rowGet row (str "Transformations")) }

/-- `parse_mapping_sheet`, with the file read modelled as an
`Option CsvFile` (`none` = the input file does not exist) and
`sys.exit(1)` after an `ERROR:` diagnostic modelled as `Except.error`
carrying that diagnostic; the messages keep the source's fixed texts
(their variable tails — path, header list — omitted from the model). -/
def parse_mapping_sheet (input : Option CsvFile) : Except Str (List FieldRule) :=
  match input with
  | none => Except.error (str "ERROR: Mapping sheet not found")
  | some csv =>
    if (str "Field") ∉ csv.headers then
      Except.error (str "ERROR: CSV must have a 'Field' header")
    else if csv.rows.filterMap parseRow = [] then
      Except.error (str "ERROR: No field rules found in mapping sheet.")
    else Except.ok (csv.rows.filterMap parseRow)

/-!
### Derived notions used by the theorems
-/

/-- Whether pattern 1 fires with a nonempty value list (the condition
under which `parse_validation_rule` returns on its first branch). -/
def enumHit (t : Str) : Bool :=
  match enumMatch t with
  | some (_ :: _) => true
  | _ => false

/-- Join lines, a newline after each. -/
def unlines : List Str → Str
  | [] => []
  | l :: ls => l ++ str "\n" ++ unlines ls

/-- The six lines of the fallback block, without their newlines. -/
def fallbackLines (field ruleText tbl batch : Str) : List Str :=
  [str "        -- TODO: Implement validation for " ++ field ++ str ": " ++ ruleText,
   str "        -- UPDATE " ++ tbl ++ str " t",
   str "        -- SET t.status = 'E',",
   str "        --     t.error_message = NVL(t.error_message, '') || '" ++
     _escape_plsql field ++ str " validation failed; '",
   str "        -- WHERE t." ++ batch ++ str " = p_batch_id",
   str "        -- AND <condition>;"]

/-- A fragment is fully commented when every line either begins — after
leading whitespace — with the comment marker `--`, or is blank. -/
def fullyCommented (s : Str) : Bool :=
  (splitLines s).all fun l => (str "--").isPrefixOf (pyLstrip l) || pyStrip l == []

/-!
### Concrete inputs used by counterexamples and witnesses
-/

/-- Two mandatory rows whose field names both equal the batch column up
to case (the spec allows duplicate rows; "BATCH_ID" is what
`detect_batch_column` resolves on this list). -/
def c1Rules : List FieldRule :=
  [⟨str "BATCH_ID", true, [], []⟩, ⟨str "batch_id", true, [], []⟩]

def c1Batch : Str := detect_batch_column c1Rules

/-- A field name with an embedded quote. -/
def c2Field : Str := str "O'HARA"

/-- A rule text with an embedded quote that no recognizer matches. -/
def c2Text : Str := str "don't know"

/-- An enumeration rule text carrying the `if not null` qualifier. -/
def c3Text : Str := str "must only be 'A' if not null"

/-- A rule text with an embedded newline that no recognizer matches. -/
def c4Text : Str := str "check later\nmanually maybe"

/-- A rule text matched by both the enumeration recognizer and the
numeric recognizer. -/
def c5Text : Str := str "must only be 'A' and must be numeric"

/-!
## Theorems
-/

theorem escape_plsql_eq_nil {s : Str} (h : _escape_plsql s = []) : s = [] := by
  cases s with
  | nil => rfl
  | cons a as => by_cases ha : a = '\'' <;> simp [_escape_plsql, ha] at h

/-- C9: applying the dialect escape (double each quote) and then the
dialect unescape (collapse each doubled quote) once yields the original
string, for every string. -/
theorem unescape_escape_roundtrip (s : Str) :
    unescape_plsql (_escape_plsql s) = s := by
  induction s with
  | nil => rfl
  | cons c cs ih =>
    by_cases hc : c = '\''
    · subst hc
      simp [_escape_plsql, unescape_plsql, ih]
    · have h1 : _escape_plsql (c :: cs) = c :: _escape_plsql cs := by
        simp [_escape_plsql, hc]
      rw [h1]
      cases h2 : _escape_plsql cs with
      | nil =>
        have hnil : cs = [] := escape_plsql_eq_nil h2
        subst hnil
        simp [unescape_plsql]
      | cons d ds =>
        have h3 : unescape_plsql (c :: d :: ds) = c :: unescape_plsql (d :: ds) := by
          simp [unescape_plsql, hc]
        rw [h3, ← h2, ih]

/-- C7: the batch-scope resolver returns the field name of the first rule
whose name contains "BATCH" case-insensitively, and the literal
"BATCH_ID" when no rule's name does; it is a total pure function of the
rule list (no error, no side effect). -/
theorem detect_batch_column_first_match (rules : List FieldRule) :
    detect_batch_column rules
      = ((rules.filter fun r => isSubstrOf (str "BATCH") (upperStr r.field)).map
          FieldRule.field).headD (str "BATCH_ID") := by
  induction rules with
  | nil => rfl
  | cons r rs ih =>
    by_cases h : isSubstrOf (str "BATCH") (upperStr r.field) = true <;>
      simp [detect_batch_column, List.filter_cons, h, ih]

/-- C10: whatever the rule list, the identifier the batch-scope resolver
returns itself contains the substring "BATCH" case-insensitively —
either because the matched field name contains it, or because the
fallback literal "BATCH_ID" does. -/
theorem detect_batch_column_result_contains_batch (rules : List FieldRule) :
    isSubstrOf (str "BATCH") (upperStr (detect_batch_column rules)) = true := by
  induction rules with
  | nil => decide
  | cons r rs ih =>
    by_cases h : isSubstrOf (str "BATCH") (upperStr r.field) = true <;>
      simp [detect_batch_column, h, ih]

theorem mandatoryBlocksAux_eq (tbl batch : Str) :
    ∀ (n : Nat) (l : List FieldRule),
      mandatoryBlocksAux tbl batch n l
        = (numbered (n + 1) (l.filter fun r => !(upperStr r.field == upperStr batch))).map
            fun p => mandatoryBlock tbl batch p.1 p.2.field := by
  intro n l
  induction l generalizing n with
  | nil => rfl
  | cons r rs ih =>
    by_cases h : upperStr r.field = upperStr batch <;>
      simp [mandatoryBlocksAux, List.filter_cons, numbered, h, ih]

theorem mandatoryBlocksAux_length (tbl batch : Str) :
    ∀ (n : Nat) (l : List FieldRule),
      (mandatoryBlocksAux tbl batch n l).length
        = l.countP fun r => !(upperStr r.field == upperStr batch) := by
  intro n l
  induction l generalizing n with
  | nil => rfl
  | cons r rs ih =>
    by_cases h : upperStr r.field = upperStr batch <;>
      simp [mandatoryBlocksAux, List.countP_cons, h, ih]

theorem countP_filter_mandatory (batch : Str) (rules : List FieldRule) :
    ((rules.filter fun r => r.mandatory).countP
        fun r => !(upperStr r.field == upperStr batch))
      = rules.countP fun r => r.mandatory && !(upperStr r.field == upperStr batch) := by
  induction rules with
  | nil => rfl
  | cons r rs ih =>
    by_cases h : r.mandatory = true <;>
      simp [List.filter_cons, List.countP_cons, h, ih]

/-- C1 (amended): the live mandatory-check blocks are exactly one block
per mandatory rule whose field name differs case-insensitively from the
batch column (so with duplicate batch-named mandatory rows, more than
one mandatory rule can be excluded), numbered consecutively from 1 in
input row order; in particular their count is the number of mandatory
rules not excluded by that name test. -/
theorem generate_mandatory_blocks_spec (tbl batch : Str) (rules : List FieldRule) :
    generate_mandatory_blocks tbl batch rules
      = (numbered 1 ((rules.filter fun r => r.mandatory).filter
            fun r => !(upperStr r.field == upperStr batch))).map
          (fun p => mandatoryBlock tbl batch p.1 p.2.field)
    ∧ (generate_mandatory_blocks tbl batch rules).length
      = rules.countP fun r => r.mandatory && !(upperStr r.field == upperStr batch) := by
  constructor
  · exact mandatoryBlocksAux_eq tbl batch 0 (rules.filter fun r => r.mandatory)
  · rw [generate_mandatory_blocks,
      mandatoryBlocksAux_length tbl batch 0 (rules.filter fun r => r.mandatory),
      countP_filter_mandatory]

/-- C1 counterexample: on `c1Rules` (both rows mandatory, both named
as the batch column up to case) the generator emits zero live blocks,
while the claim's formula — the count of mandatory rules minus one when
the batch column is mandatory — gives one. -/
theorem generate_mandatory_blocks_claim_formula_false :
    ¬((generate_mandatory_blocks (str "TBL") c1Batch c1Rules).length
        = c1Rules.countP (fun r => r.mandatory)
          - (if c1Rules.any (fun r =>
                r.mandatory && (upperStr r.field == upperStr c1Batch)) then 1 else 0)) := by
  decide

/-- C6: the guardrail scanner (i) exempts every line whose stripped text
begins with the comment marker `--`, (ii) flags the uncommented line
`DROP TABLE x` with exactly one warning carrying that line's number, and
(iii) returns true iff the collected warning list is empty — it returns
its verdict instead of aborting emission. -/
theorem validate_generated_sql_spec (n : Nat) (line text : Str) :
    ((str "--").isPrefixOf (pyStrip line) = true → lineWarnings n line = [])
    ∧ lineWarnings n (str "DROP TABLE x")
        = [str "  Line " ++ natStr n ++ str ": DROP TABLE x"]
    ∧ ((validate_generated_sql text).2 = true ↔ (validate_generated_sql text).1 = []) := by
  refine ⟨fun h => ?_, ?_, ?_⟩
  · simp [lineWarnings, h]
  · have h1 : (str "--").isPrefixOf (pyStrip (str "DROP TABLE x")) = false := by decide
    have h2 : isSubstrOf (str "DROP ") (upperStr (pyStrip (str "DROP TABLE x"))) = true := by
      decide
    have h3 : isSubstrOf (str "TRUNCATE ") (upperStr (pyStrip (str "DROP TABLE x"))) = false := by
      decide
    have h4 : isSubstrOf (str "ALTER ") (upperStr (pyStrip (str "DROP TABLE x"))) = false := by
      decide
    have h5 : str ": " ++ List.take 100 (pyStrip (str "DROP TABLE x")) = str ": DROP TABLE x" := by
      decide
    simp only [lineWarnings, DANGEROUS_KEYWORDS, h1, h2, h3, h4, List.filterMap_cons,
      List.filterMap_nil, Bool.false_eq_true, if_false, if_true, List.append_assoc, h5]
  · have hgen : ∀ w : List Str, ((w.length == 0) = true ↔ w = []) := by
      intro w
      cases w <;> simp
    exact hgen _

/-- C6 witness: a commented destructive line yields no warning. -/
theorem validate_generated_sql_spec_witness :
    lineWarnings 7 (str "   -- DROP TABLE x") = [] :=
  (validate_generated_sql_spec 7 (str "   -- DROP TABLE x") []).1 (by decide)

/-- C8: the mapping-sheet parser fails exactly on the three conditions —
missing input file, header row without a "Field" column, zero usable
rows after filtering — each with its own diagnostic and with no rules
produced, and succeeds with the filtered rules on every other input. -/
theorem parse_mapping_sheet_spec :
    parse_mapping_sheet none = Except.error (str "ERROR: Mapping sheet not found")
    ∧ (∀ csv : CsvFile, (str "Field") ∉ csv.headers →
        parse_mapping_sheet (some csv)
          = Except.error (str "ERROR: CSV must have a 'Field' header"))
    ∧ (∀ csv : CsvFile, (str "Field") ∈ csv.headers →
        csv.rows.filterMap parseRow = [] →
        parse_mapping_sheet (some csv)
          = Except.error (str "ERROR: No field rules found in mapping sheet."))
    ∧ (∀ csv : CsvFile, (str "Field") ∈ csv.headers →
        csv.rows.filterMap parseRow ≠ [] →
        parse_mapping_sheet (some csv) = Except.ok (csv.rows.filterMap parseRow)) := by
  refine ⟨rfl, fun csv h => ?_, fun csv h1 h2 => ?_, fun csv h1 h2 => ?_⟩ <;>
    simp [parse_mapping_sheet, *]

/-- C8 witness: a file whose header row lacks "Field" is fatal with the
header diagnostic. -/
theorem parse_mapping_sheet_spec_witness :
    parse_mapping_sheet (some ⟨[str "Name"], []⟩)
      = Except.error (str "ERROR: CSV must have a 'Field' header") :=
  parse_mapping_sheet_spec.2.1 ⟨[str "Name"], []⟩ (by decide)

theorem isPrefixOf_self_append (p b : Str) : p.isPrefixOf (p ++ b) = true := by
  induction p with
  | nil => simp [List.isPrefixOf]
  | cons c cs ih => simp [List.isPrefixOf, List.cons_append, ih]

theorem isSubstrOf_self_append (p b : Str) : isSubstrOf p (p ++ b) = true := by
  cases p with
  | nil => cases b <;> simp [isSubstrOf, List.isPrefixOf]
  | cons c cs =>
    have h := isPrefixOf_self_append (c :: cs) b
    rw [List.cons_append]
    simp only [isSubstrOf]
    rw [← List.cons_append]
    simp [h]

theorem isSubstrOf_append_self (a p b : Str) : isSubstrOf p (a ++ p ++ b) = true := by
  induction a with
  | nil =>
    simp only [List.nil_append]
    exact isSubstrOf_self_append p b
  | cons c a' ih =>
    have ih2 : isSubstrOf p (a' ++ (p ++ b)) = true := by
      rw [← List.append_assoc]
      exact ih
    simp only [List.cons_append, isSubstrOf]
    simp [ih2]

theorem newline_not_mem_escape {s : Str} (h : '\n' ∉ s) : '\n' ∉ _escape_plsql s := by
  induction s with
  | nil => simp [_escape_plsql]
  | cons c cs ih =>
    have hc : '\n' ≠ c := fun he => h (he ▸ List.mem_cons_self c cs)
    have hcs : '\n' ∉ cs := fun hm => h (List.mem_cons_of_mem c hm)
    by_cases hq : c = '\'' <;> simp [_escape_plsql, hq, ih hcs] <;>
      simp [hq] at hc ⊢ <;> tauto

theorem splitLines_ne_nil (s : Str) : splitLines s ≠ [] := by
  cases s with
  | nil => simp [splitLines]
  | cons c cs =>
    by_cases h : c = '\n'
    · simp [splitLines, h]
    · simp only [splitLines, if_neg h]
      cases splitLines cs <;> simp

theorem splitLines_cons_of_ne (c : Char) (cs : Str) (hc : ¬(c = '\n')) :
    splitLines (c :: cs) = (c :: (splitLines cs).headD []) :: (splitLines cs).tail := by
  simp only [splitLines, if_neg hc]
  cases h : splitLines cs with
  | nil => exact absurd h (splitLines_ne_nil cs)
  | cons x xs => simp

theorem splitLines_append_no_nl (a b : Str) (h : '\n' ∉ a) :
    splitLines (a ++ b) = (a ++ (splitLines b).headD []) :: (splitLines b).tail := by
  induction a with
  | nil =>
    simp only [List.nil_append]
    cases hb : splitLines b with
    | nil => exact absurd hb (splitLines_ne_nil b)
    | cons x xs => simp
  | cons c a' ih =>
    have hc : ¬(c = '\n') := fun he => h (he ▸ List.mem_cons_self c a')
    have ha' : '\n' ∉ a' := fun hm => h (List.mem_cons_of_mem c hm)
    rw [List.cons_append, splitLines_cons_of_ne c (a' ++ b) hc, ih ha']
    simp

theorem splitLines_unlines (ls : List Str) (h : ∀ l ∈ ls, '\n' ∉ l) :
    splitLines (unlines ls) = ls ++ [[]] := by
  induction ls with
  | nil => rfl
  | cons l ls ih =>
    have hl : '\n' ∉ l := h l (List.mem_cons_self l ls)
    have hls : ∀ x ∈ ls, '\n' ∉ x := fun x hx => h x (List.mem_cons_of_mem l hx)
    have h0 : unlines (l :: ls) = l ++ ('\n' :: unlines ls) := by
      simp only [unlines]
      rw [List.append_assoc]
      rfl
    rw [h0, splitLines_append_no_nl l ('\n' :: unlines ls) hl]
    have hsplit : splitLines ('\n' :: unlines ls) = [] :: splitLines (unlines ls) := rfl
    rw [hsplit, ih hls]
    simp

theorem enumMatch_nil : enumMatch [] = none := rfl

theorem parse_rule_enum_eq (f t tb b : Str) (v : Str) (vs : List Str)
    (h : enumMatch t = some (v :: vs)) :
    parse_validation_rule f t tb b = (enumBlock f t tb b (v :: vs), true) := by
  have hne : t ≠ [] := by
    intro ht
    rw [ht, enumMatch_nil] at h
    exact Option.noConfusion h
  unfold parse_validation_rule
  rw [if_neg hne, h]
  simp

theorem parse_rule_step2_eq (f t tb b : Str) (hne : t ≠ []) (h : enumHit t = false) :
    parse_validation_rule f t tb b = parseValidationStep2 f t tb b := by
  cases he : enumMatch t with
  | none =>
    unfold parse_validation_rule
    rw [if_neg hne, he]
  | some vs =>
    cases vs with
    | nil =>
      unfold parse_validation_rule
      rw [if_neg hne, he]
      simp
    | cons v vs' =>
      rw [enumHit, he] at h
      simp at h

theorem step2_numeric_eq (f t tb b : Str) (h : numericMatch t = true) :
    parseValidationStep2 f t tb b = (numericBlock f t tb b, true) := by
  unfold parseValidationStep2
  rw [h]
  rfl

theorem step2_skip (f t tb b : Str) (h : numericMatch t = false) :
    parseValidationStep2 f t tb b = parseValidationStep3 f t tb b := by
  unfold parseValidationStep2
  rw [h]
  rfl

theorem step3_length_eq (f t tb b n : Str) (h : lengthMatch t = some n) :
    parseValidationStep3 f t tb b = (lengthBlock f t tb b n, true) := by
  unfold parseValidationStep3
  rw [h]

theorem step3_skip (f t tb b : Str) (h : lengthMatch t = none) :
    parseValidationStep3 f t tb b = parseValidationStep4 f t tb b := by
  unfold parseValidationStep3
  rw [h]

theorem step4_char_eq (f t tb b : Str) (h : specialCharMatch t = true) :
    parseValidationStep4 f t tb b = (specialCharBlock f t tb b, true) := by
  unfold parseValidationStep4
  rw [h]
  rfl

theorem step4_skip (f t tb b : Str) (h : specialCharMatch t = false) :
    parseValidationStep4 f t tb b = parseValidationStep5 f t tb b := by
  unfold parseValidationStep4
  rw [h]
  rfl

theorem step5_exists_eq (f t tb b rt rc : Str) (h : existsMatch t = some (rt, rc)) :
    parseValidationStep5 f t tb b = (existsBlock f t tb b rt rc, true) := by
  unfold parseValidationStep5
  rw [h]

theorem step5_fallback_eq (f t tb b : Str) (h : existsMatch t = none) :
    parseValidationStep5 f t tb b = (fallbackBlock f t tb b, false) := by
  unfold parseValidationStep5
  rw [h]

theorem parse_rule_fallback_eq (f t tb b : Str) (hne : t ≠ [])
    (h1 : enumMatch t = none) (h2 : numericMatch t = false) (h3 : lengthMatch t = none)
    (h4 : specialCharMatch t = false) (h5 : existsMatch t = none) :
    parse_validation_rule f t tb b = (fallbackBlock f t tb b, false) := by
  have he : enumHit t = false := by rw [enumHit, h1]
  rw [parse_rule_step2_eq f t tb b hne he, step2_skip f t tb b h2,
    step3_skip f t tb b h3, step4_skip f t tb b h4, step5_fallback_eq f t tb b h5]

theorem hasIfNotNull_append_phrase (a c : Str) :
    hasIfNotNull (a ++ str "if not null" ++ c) = true := by
  induction a with
  | nil => rfl
  | cons d a' ih =>
    have step : hasIfNotNull ((d :: a') ++ str "if not null" ++ c)
        = ((match ciTok "if" ((d :: a') ++ str "if not null" ++ c) with
            | some r => scanNoNewline r
            | none => false) || hasIfNotNull (a' ++ str "if not null" ++ c)) := rfl
    rw [step, ih]
    exact Bool.or_true _

set_option maxRecDepth 8192 in
/-- C2 counterexample: for the fallback on a quote-carrying field and
rule text, the TODO comment embeds both verbatim — the output contains
the raw text `for O'HARA: don't know` and contains no doubled-quote
variant `don''t` anywhere, so the rule text interpolated into the
generated text is not escaped. -/
theorem fallback_rule_text_unescaped :
    enumMatch c2Text = none ∧ numericMatch c2Text = false ∧ lengthMatch c2Text = none
    ∧ specialCharMatch c2Text = false ∧ existsMatch c2Text = none
    ∧ isSubstrOf (str "for O'HARA: don't know")
        (parse_validation_rule c2Field c2Text (str "TBL") (str "BATCH_ID")).1 = true
    ∧ isSubstrOf (str "don''t")
        (parse_validation_rule c2Field c2Text (str "TBL") (str "BATCH_ID")).1 = false := by
  decide

/-- C2 (amended): on the fallback path, quote escaping is applied
exactly to the field name interpolated into the error-message string
literal; the field name and the rule text embedded in the TODO comment
line are inserted verbatim, unescaped. -/
theorem parse_fallback_raw_comment_escaped_message (f t tb b : Str) (hne : t ≠ [])
    (h1 : enumMatch t = none) (h2 : numericMatch t = false) (h3 : lengthMatch t = none)
    (h4 : specialCharMatch t = false) (h5 : existsMatch t = none) :
    isSubstrOf (str "-- TODO: Implement validation for " ++ f ++ str ": " ++ t ++ str "\n")
        (parse_validation_rule f t tb b).1 = true
    ∧ isSubstrOf (str "|| '" ++ _escape_plsql f ++ str " validation failed; '")
        (parse_validation_rule f t tb b).1 = true := by
  rw [parse_rule_fallback_eq f t tb b hne h1 h2 h3 h4 h5]
  constructor
  · have e1 : fallbackBlock f t tb b
        = str "        "
          ++ (str "-- TODO: Implement validation for " ++ f ++ str ": " ++ t ++ str "\n")
          ++ (str "        -- UPDATE " ++ tb
              ++ str " t\n        -- SET t.status = 'E',\n        --     t.error_message = NVL(t.error_message, '') || '"
              ++ _escape_plsql f
              ++ str " validation failed; '\n        -- WHERE t." ++ b
              ++ str " = p_batch_id\n        -- AND <condition>;\n") := by
      simp only [fallbackBlock, List.append_assoc]
      rfl
    rw [e1]
    exact isSubstrOf_append_self _ _ _
  · have e2 : fallbackBlock f t tb b
        = (str "        -- TODO: Implement validation for " ++ f ++ str ": " ++ t
            ++ str "\n        -- UPDATE " ++ tb
            ++ str " t\n        -- SET t.status = 'E',\n        --     t.error_message = NVL(t.error_message, '') ")
          ++ (str "|| '" ++ _escape_plsql f ++ str " validation failed; '")
          ++ (str "\n        -- WHERE t." ++ b
              ++ str " = p_batch_id\n        -- AND <condition>;\n") := by
      simp only [fallbackBlock, List.append_assoc]
      rfl
    rw [e2]
    exact isSubstrOf_append_self _ _ _

/-- C2 witness: the amended theorem at a concrete quote-carrying
input. -/
theorem parse_fallback_raw_comment_escaped_message_witness :
    isSubstrOf
        (str "-- TODO: Implement validation for " ++ c2Field ++ str ": " ++ c2Text ++ str "\n")
        (parse_validation_rule c2Field c2Text (str "TBL") (str "BATCH_ID")).1 = true
    ∧ isSubstrOf (str "|| '" ++ _escape_plsql c2Field ++ str " validation failed; '")
        (parse_validation_rule c2Field c2Text (str "TBL") (str "BATCH_ID")).1 = true :=
  parse_fallback_raw_comment_escaped_message c2Field c2Text (str "TBL") (str "BATCH_ID")
    (by decide) (by decide) (by decide) (by decide) (by decide) (by decide)

/-- C3: when the enumeration recognizer fires, the generated live check
is the enumeration template with a single guard slot, and that slot
holds exactly one `IS NOT NULL` conjunct when the `if.*not null`
qualifier is detected and is empty otherwise; the detector fires
whenever the phrase `if not null` occurs anywhere in the rule text
(position-independent presence). -/
theorem enum_null_guard_spec (f t tb b : Str) :
    (∀ v vs, enumMatch t = some (v :: vs) →
      parse_validation_rule f t tb b
        = ((str "        -- Validation: " ++ f ++ str " - " ++ t
            ++ str "\n        UPDATE " ++ tb
            ++ str " t\n        SET t.status = 'E',\n            t.error_message = NVL(t.error_message, '') || '"
            ++ _escape_plsql f ++ str " must be one of (" ++ inListMsg (v :: vs)
            ++ str "); '\n        WHERE t." ++ b ++ str " = p_batch_id")
            ++ enumNullGuard f t
            ++ (str "\n        AND t." ++ f ++ str " NOT IN ("
                ++ inListSql (v :: vs) ++ str ");\n"),
          true)
      ∧ enumNullGuard f t
        = (if hasIfNotNull t then str "\n        AND t." ++ f ++ str " IS NOT NULL"
           else []))
    ∧ (∀ a c : Str, t = a ++ str "if not null" ++ c → hasIfNotNull t = true) := by
  constructor
  · intro v vs h
    refine ⟨?_, rfl⟩
    rw [parse_rule_enum_eq f t tb b v vs h]
    have eb : enumBlock f t tb b (v :: vs)
        = (str "        -- Validation: " ++ f ++ str " - " ++ t
            ++ str "\n        UPDATE " ++ tb
            ++ str " t\n        SET t.status = 'E',\n            t.error_message = NVL(t.error_message, '') || '"
            ++ _escape_plsql f ++ str " must be one of (" ++ inListMsg (v :: vs)
            ++ str "); '\n        WHERE t." ++ b ++ str " = p_batch_id")
            ++ enumNullGuard f t
            ++ (str "\n        AND t." ++ f ++ str " NOT IN ("
                ++ inListSql (v :: vs) ++ str ");\n") := by
      simp only [enumBlock, List.append_assoc]
    rw [eb]
  · intro a c h
    rw [h]
    exact hasIfNotNull_append_phrase a c

/-- C3 witness: a concrete enumeration rule carrying the qualifier is
parsed as a live check and the detector fires. -/
theorem enum_null_guard_spec_witness :
    (parse_validation_rule (str "F") c3Text (str "T") (str "B")).2 = true
    ∧ hasIfNotNull c3Text = true := by
  constructor
  · have h := ((enum_null_guard_spec (str "F") c3Text (str "T") (str "B")).1
      (str "A") [] (by decide)).1
    rw [h]
  · exact (enum_null_guard_spec (str "F") c3Text (str "T") (str "B")).2
      (str "must only be 'A' ") [] (by decide)

set_option maxRecDepth 8192 in
/-- C4 counterexample: a rule text with an embedded newline matches no
recognizer, yet the emitted fallback fragment is not fully commented —
the text's second line surfaces as an uncommented, non-blank line. -/
theorem fallback_multiline_not_commented :
    enumMatch c4Text = none ∧ numericMatch c4Text = false ∧ lengthMatch c4Text = none
    ∧ specialCharMatch c4Text = false ∧ existsMatch c4Text = none
    ∧ (parse_validation_rule (str "F") c4Text (str "TBL") (str "BATCH_ID")).2 = false
    ∧ fullyCommented
        (parse_validation_rule (str "F") c4Text (str "TBL") (str "BATCH_ID")).1 = false := by
  decide

/-- C4 (amended): when no recognizer matches and neither the field name,
rule text, table name nor batch column contains a newline, the result is
`parsed = false` and a fragment whose lines are exactly the TODO comment
line — embedding the field name and full rule text — followed by the
five commented skeleton lines (and the empty tail line after the final
newline); every non-blank line begins, after leading whitespace, with
`--`. -/
theorem parse_fallback_fully_commented (f t tb b : Str) (hne : t ≠ [])
    (h1 : enumMatch t = none) (h2 : numericMatch t = false) (h3 : lengthMatch t = none)
    (h4 : specialCharMatch t = false) (h5 : existsMatch t = none)
    (nf : '\n' ∉ f) (nt : '\n' ∉ t) (ntb : '\n' ∉ tb) (nb : '\n' ∉ b) :
    (parse_validation_rule f t tb b).2 = false
    ∧ splitLines (parse_validation_rule f t tb b).1 = fallbackLines f t tb b ++ [[]]
    ∧ fullyCommented (parse_validation_rule f t tb b).1 = true
    ∧ (splitLines (parse_validation_rule f t tb b).1).headD []
        = str "        -- TODO: Implement validation for " ++ f ++ str ": " ++ t := by
  have hp := parse_rule_fallback_eq f t tb b hne h1 h2 h3 h4 h5
  have hA : ∀ x y : Str, '\n' ∉ x → '\n' ∉ y → '\n' ∉ x ++ y := by
    intro x y hx hy hm
    rcases List.mem_append.mp hm with hmx | hmy
    · exact hx hmx
    · exact hy hmy
  have hlines : splitLines (fallbackBlock f t tb b) = fallbackLines f t tb b ++ [[]] := by
    have hb : fallbackBlock f t tb b = unlines (fallbackLines f t tb b) := by
      simp only [fallbackBlock, fallbackLines, unlines, List.append_assoc]
      rfl
    rw [hb]
    apply splitLines_unlines
    intro l hl
    simp only [fallbackLines, List.mem_cons, List.not_mem_nil, or_false] at hl
    rcases hl with rfl | rfl | rfl | rfl | rfl | rfl
    · exact hA _ _ (hA _ _ (hA _ _ (by decide) nf) (by decide)) nt
    · exact hA _ _ (hA _ _ (by decide) ntb) (by decide)
    · decide
    · exact hA _ _ (hA _ _ (by decide) (newline_not_mem_escape nf)) (by decide)
    · exact hA _ _ (hA _ _ (by decide) nb) (by decide)
    · decide
  refine ⟨by rw [hp], ?_, ?_, ?_⟩
  · rw [hp]
    exact hlines
  · have hc : fullyCommented (fallbackBlock f t tb b) = true := by
      unfold fullyCommented
      rw [hlines]
      rfl
    rw [hp]
    exact hc
  · have hh : (splitLines (fallbackBlock f t tb b)).headD []
        = str "        -- TODO: Implement validation for " ++ f ++ str ": " ++ t := by
      rw [hlines]
      rfl
    rw [hp]
    exact hh

/-- C4 witness: the amended theorem at a concrete unmatched rule
text. -/
theorem parse_fallback_fully_commented_witness :
    fullyCommented
        (parse_validation_rule (str "F") (str "review manually") (str "TBL")
          (str "BATCH_ID")).1 = true :=
  (parse_fallback_fully_commented (str "F") (str "review manually") (str "TBL")
      (str "BATCH_ID") (by decide) (by decide) (by decide) (by decide) (by decide)
      (by decide) (by decide) (by decide) (by decide) (by decide)).2.2.1

/-- C5: the cascade applies its recognizers in the fixed order
enumeration, numeric, length, character class, referential; the first
match determines the whole output with `parsed = true`, whatever the
later recognizers would say. -/
theorem cascade_first_match_wins (f t tb b : Str) :
    (∀ v vs, enumMatch t = some (v :: vs) →
        parse_validation_rule f t tb b = (enumBlock f t tb b (v :: vs), true))
    ∧ (enumHit t = false → numericMatch t = true →
        parse_validation_rule f t tb b = (numericBlock f t tb b, true))
    ∧ (enumHit t = false → numericMatch t = false → ∀ n, lengthMatch t = some n →
        parse_validation_rule f t tb b = (lengthBlock f t tb b n, true))
    ∧ (enumHit t = false → numericMatch t = false → lengthMatch t = none →
        specialCharMatch t = true →
        parse_validation_rule f t tb b = (specialCharBlock f t tb b, true))
    ∧ (enumHit t = false → numericMatch t = false → lengthMatch t = none →
        specialCharMatch t = false → ∀ rt rc, existsMatch t = some (rt, rc) →
        parse_validation_rule f t tb b = (existsBlock f t tb b rt rc, true)) := by
  refine ⟨fun v vs h => parse_rule_enum_eq f t tb b v vs h, ?_, ?_, ?_, ?_⟩
  · intro he hn
    have hne : t ≠ [] := by
      intro ht
      rw [ht] at hn
      exact Bool.noConfusion hn
    rw [parse_rule_step2_eq f t tb b hne he, step2_numeric_eq f t tb b hn]
  · intro he hn n hl
    have hne : t ≠ [] := by
      intro ht
      rw [ht] at hl
      exact Option.noConfusion hl
    rw [parse_rule_step2_eq f t tb b hne he, step2_skip f t tb b hn,
      step3_length_eq f t tb b n hl]
  · intro he hn hl hc
    have hne : t ≠ [] := by
      intro ht
      rw [ht] at hc
      exact Bool.noConfusion hc
    rw [parse_rule_step2_eq f t tb b hne he, step2_skip f t tb b hn,
      step3_skip f t tb b hl, step4_char_eq f t tb b hc]
  · intro he hn hl hc rt rc hx
    have hne : t ≠ [] := by
      intro ht
      rw [ht] at hx
      exact Option.noConfusion hx
    rw [parse_rule_step2_eq f t tb b hne he, step2_skip f t tb b hn,
      step3_skip f t tb b hl, step4_skip f t tb b hc,
      step5_exists_eq f t tb b rt rc hx]

/-- C5 witness: a rule text matched by both the enumeration and the
numeric recognizer compiles to the enumeration check. -/
theorem cascade_first_match_wins_witness :
    parse_validation_rule (str "F") c5Text (str "T") (str "B")
      = (enumBlock (str "F") c5Text (str "T") (str "B") [str "A"], true)
    ∧ numericMatch c5Text = true :=
  ⟨(cascade_first_match_wins (str "F") c5Text (str "T") (str "B")).1 (str "A") []
      (by decide),
   by decide⟩
